import Mathlib

/-!
Verification of the invoice ledger engine of the `invoicer` repository.

The definitions below are a shallow embedding of the invoice route handlers
(`calculateInvoiceTotals`, the status PATCH handler, the payment POST and
DELETE handlers, `generateInvoiceNumber`) and of the relevant column defaults
of the database schema.  Monetary amounts are modelled as exact rationals
(`Rat`); the JavaScript source performs the same arithmetic on IEEE doubles,
and every concrete input used in a theorem below is chosen so that the float
computation is exact (or serializes to the same decimal string), making the
rational model faithful at those inputs.  The monetary columns of the
schema are `decimal(12,2)`, so PostgreSQL rounds every stored monetary
value to 2 fractional digits at write time; `round2`/`storedTotals` model
that storage rounding on top of the in-process arithmetic.
Timestamps are modelled as `Option Nat` (`none` = SQL NULL, `some t` = a
concrete clock reading); the current time is passed explicitly as `now`.
-/

namespace Invoicer

/-- The six invoice statuses of the `invoice_status` enum in the schema. -/
inductive InvoiceStatus
  | draft
  | sent
  | viewed
  | paid
  | overdue
  | cancelled
deriving DecidableEq, Repr

/-- The discount type column: a nullable varchar that the engine compares
against the strings "percentage" and "fixed"; every other value (including
SQL NULL) falls through to the no-discount branch. -/
inductive DiscountType
  | noDiscount
  | percentage
  | fixed
deriving DecidableEq, Repr

/-- One row of `invoice_items`: description, quantity, rate, the stored
`amount` (written as quantity x rate at item-write time) and sort order. -/
structure LineItem where
  description : String
  quantity : Rat
  rate : Rat
  amount : Rat
  sortOrder : Nat
deriving DecidableEq, Repr

/-- One row of `payments` belonging to a fixed invoice: primary key and
amount.  Date, method, reference and notes play no role in the engine
logic and are omitted. -/
structure Payment where
  id : Nat
  amount : Rat
deriving DecidableEq, Repr

/-- The engine-relevant columns of one `invoices` row. -/
structure Invoice where
  status : InvoiceStatus
  taxRate : Rat
  discountType : DiscountType
  discountValue : Rat
  subtotal : Rat
  taxAmount : Rat
  discountAmount : Rat
  total : Rat
  amountPaid : Rat
  balanceDue : Rat
  sentAt : Option Nat
  viewedAt : Option Nat
  paidAt : Option Nat
deriving DecidableEq, Repr

/-- Sum of the stored `amount` column over a list of line items
(the `coalesce(sum(amount), 0)` aggregate of `calculateInvoiceTotals`). -/
def itemsSum (items : List LineItem) : Rat :=
  (items.map (fun it => it.amount)).sum

/-- Sum of the `amount` column over a list of payments. -/
def paymentsSum (ps : List Payment) : Rat :=
  (ps.map (fun p => p.amount)).sum

/-- Embedding of the JavaScript arithmetic of `calculateInvoiceTotals`
(routes/invoices, lines 74-131): subtotal from the item aggregate,
discount by type, tax on the unclamped difference, total, and
`balanceDue = total - amountPaid`; no clamping and no rounding appear in
the handler itself.  The values written back by its UPDATE additionally
pass through the `decimal(12,2)` monetary columns, which round each
stored value to 2 decimals; `storedTotals` below composes this function
with that storage rounding to model the persisted row. -/
def calculateInvoiceTotals (items : List LineItem) (inv : Invoice) : Invoice :=
  let subtotal := itemsSum items
  let discountAmount :=
    match inv.discountType with
    | DiscountType.percentage => subtotal * (inv.discountValue / 100)
    | DiscountType.fixed => inv.discountValue
    | DiscountType.noDiscount => 0
  let taxAmount := (subtotal - discountAmount) * (inv.taxRate / 100)
  let total := subtotal - discountAmount + taxAmount
  let balanceDue := total - inv.amountPaid
  { inv with
    subtotal := subtotal
    taxAmount := taxAmount
    discountAmount := discountAmount
    total := total
    balanceDue := balanceDue }

/-- Embedding of the PATCH /:id/status handler (lines 605-669).  The route
only validates that the requested status is one of the six enum values;
it then unconditionally stores it, setting each lifecycle timestamp when
first entering the corresponding status, and forcing
`amountPaid = total, balanceDue = 0` when marking as paid with `paidAt`
still unset. -/
def setStatus (inv : Invoice) (newStatus : InvoiceStatus) (now : Nat) : Invoice :=
  let inv1 := { inv with status := newStatus }
  let inv2 :=
    if newStatus = InvoiceStatus.sent ∧ inv.sentAt = none then
      { inv1 with sentAt := some now }
    else inv1
  let inv3 :=
    if newStatus = InvoiceStatus.viewed ∧ inv.viewedAt = none then
      { inv2 with viewedAt := some now }
    else inv2
  if newStatus = InvoiceStatus.paid ∧ inv.paidAt = none then
    { inv3 with paidAt := some now, amountPaid := inv.total, balanceDue := 0 }
  else inv3

/-- Embedding of the POST /:id/payments handler (lines 672-758).  The
validator rejects amounts below 0.01; the handler rejects cancelled
invoices, appends the payment row, recomputes `amountPaid` incrementally,
clamps `balanceDue` at 0, flips the status to paid when the new balance is
non-positive, and stores `paidAt = now` whenever the resulting status is
paid (even when it already was). -/
def addPayment (inv : Invoice) (ps : List Payment) (amount : Rat)
    (now : Nat) (newId : Nat) : Except String (Invoice × List Payment) :=
  if amount < 1 / 100 then
    Except.error "Payment amount must be positive"
  else if inv.status = InvoiceStatus.cancelled then
    Except.error "Cannot add payment to cancelled invoice"
  else
    let newAmountPaid := inv.amountPaid + amount
    let newBalanceDue := inv.total - newAmountPaid
    let newStatus :=
      if newBalanceDue ≤ 0 then InvoiceStatus.paid else inv.status
    let inv' := { inv with
      amountPaid := newAmountPaid
      balanceDue := max 0 newBalanceDue
      status := newStatus
      paidAt := if newStatus = InvoiceStatus.paid then some now else inv.paidAt }
    Except.ok (inv', ps ++ [{ id := newId, amount := amount }])

/-- Embedding of the DELETE /:invoiceId/payments/:paymentId handler
(lines 761-834).  Looks up the payment, removes it, recomputes
`amountPaid` (clamped at 0) and `balanceDue` (NOT clamped), reverts a paid
status to sent/draft when a positive balance reappears, and nulls `paidAt`
whenever the resulting status is not paid. -/
def deletePayment (inv : Invoice) (ps : List Payment) (paymentId : Nat) :
    Except String (Invoice × List Payment) :=
  match ps.find? (fun p => p.id == paymentId) with
  | none => Except.error "Payment not found"
  | some payment =>
    let newAmountPaid := inv.amountPaid - payment.amount
    let newBalanceDue := inv.total - newAmountPaid
    let newStatus :=
      if inv.status = InvoiceStatus.paid ∧ newBalanceDue > 0 then
        (if inv.sentAt.isSome then InvoiceStatus.sent else InvoiceStatus.draft)
      else inv.status
    let inv' := { inv with
      amountPaid := max 0 newAmountPaid
      balanceDue := newBalanceDue
      status := newStatus
      paidAt := if newStatus ≠ InvoiceStatus.paid then none else inv.paidAt }
    Except.ok (inv', ps.filter (fun p => p.id != paymentId))

/-- One row of `invoice_sequences` with its schema defaults:
prefix "INV", next_number 1, padding 4. -/
structure InvoiceSequence where
  prefixVal : String
  nextNumber : Nat
  padding : Nat
deriving DecidableEq, Repr

/-- The column defaults of `invoice_sequences` in the schema. -/
def defaultSequence : InvoiceSequence :=
  { prefixVal := "INV", nextNumber := 1, padding := 4 }

/-- The `invoice_sequences` table: one (userId, row) pair per user. -/
abbrev SeqTable := List (Nat × InvoiceSequence)

/-- SELECT ... WHERE user_id = userId LIMIT 1 on the sequence table. -/
def seqLookup : SeqTable → Nat → Option InvoiceSequence
  | [], _ => none
  | (k, v) :: rest, u => if k = u then some v else seqLookup rest u

/-- UPDATE invoice_sequences SET next_number = next_number + 1
WHERE user_id = userId. -/
def seqIncrement : SeqTable → Nat → SeqTable
  | [], _ => []
  | (k, v) :: rest, u =>
    (if k = u then (k, { v with nextNumber := v.nextNumber + 1 }) else (k, v)) ::
      seqIncrement rest u

/-- The storage effect of `generateInvoiceNumber` (lines 41-71): select the
user's sequence row, insert the default row if absent, then run the atomic
increment whose RETURNING clause yields the pre-increment `nextNumber`
together with the prefix and padding.  Returns that row and the updated
table. -/
def sequenceAllocate (u : Nat) (t : SeqTable) : InvoiceSequence × SeqTable :=
  let t1 :=
    match seqLookup t u with
    | none => t ++ [(u, defaultSequence)]
    | some _ => t
  let row := (seqLookup t1 u).getD defaultSequence
  (row, seqIncrement t1 u)

/-- JavaScript `String.padStart(width, c)`: prepend copies of `c` until the
string is at least `width` long (never truncates). -/
def padStart (s : String) (width : Nat) (c : Char) : String :=
  String.mk (List.replicate (width - s.length) c) ++ s

/-- `generateInvoiceNumber` (lines 41-71): allocate from the per-user
sequence and format `prefix + String(nextNumber).padStart(padding, "0")`. -/
def generateInvoiceNumber (u : Nat) (t : SeqTable) : String × SeqTable :=
  let (seq, t') := sequenceAllocate u t
  (seq.prefixVal ++ padStart (toString seq.nextNumber) seq.padding '0', t')

/-- State visible across invoice-creation attempts for one user: the
sequence table, plus the (numeric counter value, formatted string) pair of
every successfully created invoice, in creation order. -/
structure CreateStore where
  seqs : SeqTable
  issuedNumbers : List (Nat × String)
deriving DecidableEq, Repr

/-- One POST / invoice-creation attempt for user `u`.  The handler calls
`generateInvoiceNumber` on the shared `db` handle (not on the transaction),
so the sequence increment commits even when the surrounding transaction
fails; `fail = true` models a creation whose invoice insert fails and rolls
back, `fail = false` a successful creation that records the allocated
number. -/
def createAttempt (u : Nat) (fail : Bool) (st : CreateStore) : CreateStore :=
  let (seq, t') := sequenceAllocate u st.seqs
  let num := seq.prefixVal ++ padStart (toString seq.nextNumber) seq.padding '0'
  if fail then { st with seqs := t' }
  else { seqs := t', issuedNumbers := st.issuedNumbers ++ [(seq.nextNumber, num)] }

/-- A sequence of creation attempts (False = success, True = failed insert). -/
def runAttempts (u : Nat) (fails : List Bool) (st : CreateStore) : CreateStore :=
  fails.foldl (fun s f => createAttempt u f s) st

/-- A line item of the request body before insertion; `quantity` and `rate`
may be absent (undefined in the JSON body). -/
structure ReqItem where
  description : String
  quantity : Option Rat
  rate : Option Rat
deriving DecidableEq, Repr

/-- JavaScript `x || d` on an optional numeric field: both `undefined` and
`0` are falsy and yield the default. -/
def jsOr (v : Option Rat) (d : Rat) : Rat :=
  match v with
  | some x => if x = 0 then d else x
  | none => d

/-- The item rows inserted by the creation handler (lines 430-446):
`quantity = item.quantity || 1`, `rate = item.rate || 0`,
`amount = quantity * rate`, `sortOrder` = array index. -/
def buildItems (reqItems : List ReqItem) : List LineItem :=
  reqItems.enum.map fun pair =>
    { description := pair.2.description
      quantity := jsOr pair.2.quantity 1
      rate := jsOr pair.2.rate 0
      amount := jsOr pair.2.quantity 1 * jsOr pair.2.rate 0
      sortOrder := pair.1 }

/-- The `invoices` row inserted by the creation handler: schema defaults
(status draft, all monetary totals 0, timestamps NULL) plus the request's
tax and discount settings. -/
def newInvoiceDefaults (taxRate : Rat) (dt : DiscountType) (dv : Rat) : Invoice :=
  { status := InvoiceStatus.draft
    taxRate := taxRate
    discountType := dt
    discountValue := dv
    subtotal := 0
    taxAmount := 0
    discountAmount := 0
    total := 0
    amountPaid := 0
    balanceDue := 0
    sentAt := none
    viewedAt := none
    paidAt := none }

/-- The database state touched by one invoice-creation request: the
sequence table, the new invoice row (if inserted yet) and its item rows. -/
structure CreateDB where
  seqs : SeqTable
  invoiceRow : Option Invoice
  itemRows : List LineItem
deriving DecidableEq, Repr

/-- The committed states of the POST / creation flow, in order: the initial
state; the state after `generateInvoiceNumber` (which runs on `db`, outside
the transaction, and commits on its own); the state after the transaction
that inserts the invoice row and its items commits; and the state after the
separate `calculateInvoiceTotals` update (run after the transaction -- the
source comments "outside transaction for simplicity") commits. -/
def createInvoiceTrace (u : Nat) (taxRate : Rat) (dt : DiscountType) (dv : Rat)
    (reqItems : List ReqItem) (seqs0 : SeqTable) : List CreateDB :=
  let s0 : CreateDB := { seqs := seqs0, invoiceRow := none, itemRows := [] }
  let seqs1 := (generateInvoiceNumber u seqs0).2
  let s1 : CreateDB := { s0 with seqs := seqs1 }
  let inv0 := newInvoiceDefaults taxRate dt dv
  let items := buildItems reqItems
  let s2 : CreateDB := { s1 with invoiceRow := some inv0, itemRows := items }
  let s3 : CreateDB := { s2 with invoiceRow := some (calculateInvoiceTotals items inv0) }
  [s0, s1, s2, s3]

/-- A monetary value is representable with two decimal digits, i.e. it is
an integer number of hundredths.  Used to state the rounding claim. -/
def isTwoDecimal (q : Rat) : Prop :=
  ∃ k : ℤ, q = (k : ℚ) / 100

/-- Rounding to 2 fractional digits as PostgreSQL performs it when a value
is written into a `decimal(12,2)` column (schema part_008:84-92, migration
part_009:59-67): round half away from zero. -/
def round2 (q : Rat) : Rat :=
  if q < 0 then -((⌊(-q) * 100 + 1 / 2⌋ : ℚ) / 100)
  else (⌊q * 100 + 1 / 2⌋ : ℚ) / 100

/-- The invoice row as persisted by the UPDATE of `calculateInvoiceTotals`:
the JavaScript computation produces exact (unrounded) derived values, and
each monetary column then rounds its stored value to 2 decimals because
the columns are `decimal(12,2)`.  `calculateInvoiceTotals` models the
in-process arithmetic; this definition composes it with the column
rounding to model the stored row. -/
def storedTotals (items : List LineItem) (inv : Invoice) : Invoice :=
  let r := calculateInvoiceTotals items inv
  { r with
    subtotal := round2 r.subtotal
    taxAmount := round2 r.taxAmount
    discountAmount := round2 r.discountAmount
    total := round2 r.total
    balanceDue := round2 r.balanceDue }

/-- A fully zeroed draft invoice, used as the base of the concrete
fixtures appearing in the theorems below. -/
def baseInvoice : Invoice :=
  { status := InvoiceStatus.draft
    taxRate := 0
    discountType := DiscountType.noDiscount
    discountValue := 0
    subtotal := 0
    taxAmount := 0
    discountAmount := 0
    total := 0
    amountPaid := 0
    balanceDue := 0
    sentAt := none
    viewedAt := none
    paidAt := none }

/-- The counter value the next allocation for user `u` will receive:
the stored `nextNumber` of the user's sequence row, or the default 1 when
no row exists yet. -/
def nextCounter (st : CreateStore) (u : Nat) : Nat :=
  ((seqLookup st.seqs u).map (fun r => r.nextNumber)).getD 1

/-- Allocation invariant: every counter value already issued to an invoice
of user `u` is strictly below the next value the sequence will hand out. -/
def IssuedBelow (st : CreateStore) (u : Nat) : Prop :=
  ∀ n ∈ st.issuedNumbers.map Prod.fst, n < nextCounter st u

/-! Helper lemmas about the engine operations. -/

/-- Field-level description of `setStatus`: the requested status is always
stored, each timestamp is written only on first entry, and marking as paid
with `paidAt` unset forces `amountPaid = total` and `balanceDue = 0`. -/
theorem setStatus_spec (inv : Invoice) (s : InvoiceStatus) (now : Nat) :
    (setStatus inv s now).status = s ∧
    (setStatus inv s now).sentAt =
      (if s = InvoiceStatus.sent ∧ inv.sentAt = none then some now else inv.sentAt) ∧
    (setStatus inv s now).viewedAt =
      (if s = InvoiceStatus.viewed ∧ inv.viewedAt = none then some now else inv.viewedAt) ∧
    (setStatus inv s now).paidAt =
      (if s = InvoiceStatus.paid ∧ inv.paidAt = none then some now else inv.paidAt) ∧
    (setStatus inv s now).amountPaid =
      (if s = InvoiceStatus.paid ∧ inv.paidAt = none then inv.total else inv.amountPaid) ∧
    (setStatus inv s now).balanceDue =
      (if s = InvoiceStatus.paid ∧ inv.paidAt = none then 0 else inv.balanceDue) := by
  simp only [setStatus]
  split_ifs <;> simp_all

/-- Success inversion for `addPayment`: field-level description of the
updated invoice row and payment list. -/
theorem addPayment_ok_spec {inv : Invoice} {ps : List Payment} {a : Rat}
    {now newId : Nat} {inv' : Invoice} {ps' : List Payment}
    (h : addPayment inv ps a now newId = Except.ok (inv', ps')) :
    inv'.amountPaid = inv.amountPaid + a ∧
    inv'.total = inv.total ∧
    inv'.balanceDue = max 0 (inv.total - (inv.amountPaid + a)) ∧
    inv'.status =
      (if inv.total - (inv.amountPaid + a) ≤ 0 then InvoiceStatus.paid else inv.status) ∧
    inv'.paidAt = (if inv'.status = InvoiceStatus.paid then some now else inv.paidAt) ∧
    inv'.sentAt = inv.sentAt ∧
    inv'.viewedAt = inv.viewedAt ∧
    ps' = ps ++ [{ id := newId, amount := a }] := by
  simp only [addPayment] at h
  by_cases h1 : a < 1 / 100
  · rw [if_pos h1] at h; exact Except.noConfusion h
  rw [if_neg h1] at h
  by_cases h2 : inv.status = InvoiceStatus.cancelled
  · rw [if_pos h2] at h; exact Except.noConfusion h
  rw [if_neg h2] at h
  simp only [Except.ok.injEq, Prod.mk.injEq] at h
  obtain ⟨hinv, hps⟩ := h
  subst hinv hps
  exact ⟨rfl, rfl, rfl, rfl, rfl, rfl, rfl, rfl⟩

/-- A successful `deletePayment` found a payment row. -/
theorem deletePayment_ok_find {inv : Invoice} {ps : List Payment} {pid : Nat}
    {inv' : Invoice} {ps' : List Payment}
    (h : deletePayment inv ps pid = Except.ok (inv', ps')) :
    ∃ p, ps.find? (fun q => q.id == pid) = some p := by
  simp only [deletePayment] at h
  cases hf : ps.find? (fun q => q.id == pid) with
  | none => rw [hf] at h; exact absurd h (by simp)
  | some p => exact ⟨p, rfl⟩

/-- Success inversion for `deletePayment`: field-level description of the
updated invoice row and payment list, in terms of the found payment. -/
theorem deletePayment_ok_spec {inv : Invoice} {ps : List Payment} {pid : Nat}
    {inv' : Invoice} {ps' : List Payment} {p : Payment}
    (hf : ps.find? (fun q => q.id == pid) = some p)
    (h : deletePayment inv ps pid = Except.ok (inv', ps')) :
    inv'.amountPaid = max 0 (inv.amountPaid - p.amount) ∧
    inv'.balanceDue = inv.total - (inv.amountPaid - p.amount) ∧
    inv'.status =
      (if inv.status = InvoiceStatus.paid ∧ inv.total - (inv.amountPaid - p.amount) > 0 then
        (if inv.sentAt.isSome then InvoiceStatus.sent else InvoiceStatus.draft)
      else inv.status) ∧
    inv'.paidAt = (if inv'.status ≠ InvoiceStatus.paid then none else inv.paidAt) ∧
    inv'.sentAt = inv.sentAt ∧
    inv'.viewedAt = inv.viewedAt ∧
    inv'.total = inv.total ∧
    ps' = ps.filter (fun q => q.id != pid) := by
  simp only [deletePayment, hf] at h
  simp only [Except.ok.injEq, Prod.mk.injEq] at h
  obtain ⟨hinv, hps⟩ := h
  subst hinv hps
  exact ⟨rfl, rfl, rfl, rfl, rfl, rfl, rfl, rfl⟩

/-- Removing the found payment removes exactly its amount from the
payments sum, provided payment ids are unique. -/
theorem paymentsSum_filter_of_find (pid : Nat) (p : Payment) :
    ∀ ps : List Payment, (ps.map (fun q => q.id)).Nodup →
      ps.find? (fun q => q.id == pid) = some p →
      paymentsSum (ps.filter (fun q => q.id != pid)) = paymentsSum ps - p.amount := by
  intro ps
  induction ps with
  | nil => intro _ hf; cases hf
  | cons q rest ih =>
    intro hn hf
    have hnrest : (rest.map (fun r => r.id)).Nodup := (List.nodup_cons.mp hn).2
    by_cases hq : q.id = pid
    · rw [List.find?_cons_of_pos _ (by simp [hq])] at hf
      injection hf with hpq
      subst hpq
      have hkeep : rest.filter (fun r => r.id != pid) = rest := by
        refine List.filter_eq_self.mpr ?_
        intro r hr
        have : r.id ≠ pid := by
          intro hcontra
          have hmem : q.id ∈ rest.map (fun s => s.id) := by
            rw [hq, ← hcontra]
            exact List.mem_map_of_mem _ hr
          exact (List.nodup_cons.mp hn).1 hmem
        simpa using this
      rw [List.filter_cons_of_neg (by simp [hq]), hkeep]
      simp only [paymentsSum, List.map_cons, List.sum_cons]
      ring
    · rw [List.find?_cons_of_neg _ (by simp [hq])] at hf
      have hrec := ih hnrest hf
      rw [List.filter_cons_of_pos (by simp [hq])]
      simp only [paymentsSum, List.map_cons, List.sum_cons] at hrec ⊢
      rw [hrec]
      ring

/-- The remaining payments sum is nonnegative when all amounts are. -/
theorem paymentsSum_nonneg (ps : List Payment) (h : ∀ q ∈ ps, 0 ≤ q.amount) :
    0 ≤ paymentsSum ps := by
  refine List.sum_nonneg ?_
  intro x hx
  obtain ⟨q, hq, rfl⟩ := List.mem_map.mp hx
  exact h q hq

/-! Theorems for Claim C1. -/

/-- Claim C1 counterexample: the claim says the stored `balanceDue` equals
`max(0, total - amountPaid)` after every engine mutation and is never
negative.  Recomputing totals for an invoice with no items and
`amountPaid = 50` stores `balanceDue = -50`, which is negative and differs
from the clamped value 0. -/
theorem c1_counterexample :
    (calculateInvoiceTotals [] { baseInvoice with amountPaid := 50 }).balanceDue = -50 ∧
    (calculateInvoiceTotals [] { baseInvoice with amountPaid := 50 }).balanceDue < 0 ∧
    (calculateInvoiceTotals [] { baseInvoice with amountPaid := 50 }).balanceDue ≠
      max 0 ((calculateInvoiceTotals [] { baseInvoice with amountPaid := 50 }).total -
        (calculateInvoiceTotals [] { baseInvoice with amountPaid := 50 }).amountPaid) := by
  refine ⟨?_, ?_, ?_⟩ <;> simp [calculateInvoiceTotals, itemsSum, baseInvoice]

/-- Claim C1 (amended): `balanceDue` is clamped at zero only in the
payment-add path; the totals recomputation and the payment-delete path
store the unclamped value `total - amountPaid` (negative whenever
`amountPaid` exceeds `total`). -/
theorem c1_balanceDue_clamping :
    (∀ (items : List LineItem) (inv : Invoice),
      (calculateInvoiceTotals items inv).balanceDue =
        (calculateInvoiceTotals items inv).total -
          (calculateInvoiceTotals items inv).amountPaid) ∧
    (∀ (inv : Invoice) (ps : List Payment) (a : Rat) (now newId : Nat)
        (inv' : Invoice) (ps' : List Payment),
      addPayment inv ps a now newId = Except.ok (inv', ps') →
      inv'.balanceDue = max 0 (inv'.total - inv'.amountPaid)) ∧
    (∀ (inv : Invoice) (ps : List Payment) (pid : Nat) (p : Payment)
        (inv' : Invoice) (ps' : List Payment),
      ps.find? (fun q => q.id == pid) = some p →
      deletePayment inv ps pid = Except.ok (inv', ps') →
      inv'.balanceDue = inv.total - (inv.amountPaid - p.amount)) := by
  refine ⟨fun items inv => rfl, ?_, ?_⟩
  · intro inv ps a now newId inv' ps' h
    obtain ⟨hap, ht, hbd, _⟩ := addPayment_ok_spec h
    rw [hbd, ht, hap]
  · intro inv ps pid p inv' ps' hf h
    exact (deletePayment_ok_spec hf h).2.1

/-- Claim C1 witness: the amended statement instantiated on a concrete
payment add and a concrete payment delete. -/
theorem c1_balanceDue_clamping_witness :
    ∃ (inv' : Invoice) (ps' : List Payment),
      addPayment { baseInvoice with total := 30 } [] 10 5 1 = Except.ok (inv', ps') ∧
      inv'.balanceDue = max 0 (inv'.total - inv'.amountPaid) ∧
      ∃ (inv'' : Invoice) (ps'' : List Payment),
        deletePayment { baseInvoice with total := 30, amountPaid := 10 }
          [{ id := 1, amount := 10 }] 1 = Except.ok (inv'', ps'') ∧
        inv''.balanceDue =
          ({ baseInvoice with total := 30, amountPaid := 10 } : Invoice).total -
            (({ baseInvoice with total := 30, amountPaid := 10 } : Invoice).amountPaid - 10) := by
  have hadd : ∃ r, addPayment { baseInvoice with total := 30 } [] 10 5 1 = Except.ok r := by
    simp only [addPayment]
    rw [if_neg (by norm_num), if_neg (by simp [baseInvoice])]
    exact ⟨_, rfl⟩
  obtain ⟨⟨inv', ps'⟩, hadd⟩ := hadd
  have hdel : ∃ r, deletePayment { baseInvoice with total := 30, amountPaid := 10 }
      [{ id := 1, amount := 10 }] 1 = Except.ok r := ⟨_, rfl⟩
  obtain ⟨⟨inv'', ps''⟩, hdel⟩ := hdel
  have hfind : List.find? (fun q => q.id == 1) [({ id := 1, amount := 10 } : Payment)] =
      some { id := 1, amount := 10 } := rfl
  exact ⟨inv', ps', hadd, c1_balanceDue_clamping.2.1 _ _ _ _ _ _ _ hadd,
    inv'', ps'', hdel, c1_balanceDue_clamping.2.2 _ _ _ _ _ _ hfind hdel⟩

/-! Theorems for Claim C2. -/

/-- Claim C2 counterexample: the claim says setStatus enforces the
state-machine transitions (cancelled is terminal) and rejects anything
else with an InvalidTransition error, leaving the invoice unchanged.  The
status route performs no such validation: setting a cancelled invoice to
draft succeeds and changes the stored status. -/
theorem c2_counterexample :
    (setStatus { baseInvoice with status := InvoiceStatus.cancelled }
      InvoiceStatus.draft 5).status = InvoiceStatus.draft ∧
    (setStatus { baseInvoice with status := InvoiceStatus.cancelled }
      InvoiceStatus.draft 5).status ≠ InvoiceStatus.cancelled := by
  refine ⟨?_, ?_⟩ <;> simp [setStatus, baseInvoice]

/-- Claim C2 (amended): the status route validates only that the requested
status is one of the six enum values; it then applies it unconditionally
from any current state, so the stored status always becomes the requested
one and no transition is ever rejected. -/
theorem c2_no_transition_validation :
    ∀ (inv : Invoice) (s : InvoiceStatus) (now : Nat),
      (setStatus inv s now).status = s :=
  fun inv s now => (setStatus_spec inv s now).1

/-! Theorems for Claim C3. -/

/-- Claim C3 counterexample: the claim says `amountPaid` always equals the
sum of the recorded payments, including after an explicit status set.
Marking an invoice with `total = 100` and no payments as paid stores
`amountPaid = 100` while the payments sum is 0. -/
theorem c3_counterexample :
    (setStatus { baseInvoice with total := 100 } InvoiceStatus.paid 5).amountPaid = 100 ∧
    paymentsSum [] = 0 ∧
    (setStatus { baseInvoice with total := 100 } InvoiceStatus.paid 5).amountPaid ≠
      paymentsSum [] := by
  refine ⟨?_, rfl, ?_⟩ <;> simp [setStatus, baseInvoice, paymentsSum]

/-- Claim C3 (amended): payment add and payment delete preserve
`amountPaid = Σ payments.amount` (given unique payment ids and
nonnegative amounts), and the totals recomputation leaves `amountPaid`
untouched; but the explicit status route, when marking as paid, forces
`amountPaid = total` without recording any payment row, so the equation
breaks there whenever `total` differs from the payments sum. -/
theorem c3_amountPaid_consistency :
    (∀ (inv : Invoice) (ps : List Payment) (a : Rat) (now newId : Nat)
        (inv' : Invoice) (ps' : List Payment),
      inv.amountPaid = paymentsSum ps →
      addPayment inv ps a now newId = Except.ok (inv', ps') →
      inv'.amountPaid = paymentsSum ps') ∧
    (∀ (inv : Invoice) (ps : List Payment) (pid : Nat)
        (inv' : Invoice) (ps' : List Payment),
      (ps.map (fun q => q.id)).Nodup →
      (∀ q ∈ ps, 0 ≤ q.amount) →
      inv.amountPaid = paymentsSum ps →
      deletePayment inv ps pid = Except.ok (inv', ps') →
      inv'.amountPaid = paymentsSum ps') ∧
    (∀ (items : List LineItem) (inv : Invoice),
      (calculateInvoiceTotals items inv).amountPaid = inv.amountPaid) := by
  refine ⟨?_, ?_, fun items inv => rfl⟩
  · intro inv ps a now newId inv' ps' hsum h
    obtain ⟨hap, _, _, _, _, _, _, hps⟩ := addPayment_ok_spec h
    rw [hap, hsum, hps]
    simp [paymentsSum]
  · intro inv ps pid inv' ps' hn hpos hsum h
    obtain ⟨p, hf⟩ := deletePayment_ok_find h
    obtain ⟨hap, _, _, _, _, _, _, hps⟩ := deletePayment_ok_spec hf h
    have hfil := paymentsSum_filter_of_find pid p ps hn hf
    have h0 : 0 ≤ paymentsSum (ps.filter (fun q => q.id != pid)) := by
      refine paymentsSum_nonneg _ ?_
      intro q hq
      exact hpos q (List.mem_of_mem_filter hq)
    rw [hap, hsum, hps, ← hfil]
    exact max_eq_right h0

/-- Claim C3 witness: the amended statement instantiated on a concrete
payment add and a concrete payment delete. -/
theorem c3_amountPaid_consistency_witness :
    ∃ (inv' : Invoice) (ps' : List Payment),
      addPayment { baseInvoice with total := 30 } [] 10 5 1 = Except.ok (inv', ps') ∧
      inv'.amountPaid = paymentsSum ps' ∧
      ∃ (inv'' : Invoice) (ps'' : List Payment),
        deletePayment { baseInvoice with total := 30, amountPaid := 10 }
          [{ id := 1, amount := 10 }] 1 = Except.ok (inv'', ps'') ∧
        inv''.amountPaid = paymentsSum ps'' := by
  have hadd : ∃ r, addPayment { baseInvoice with total := 30 } [] 10 5 1 = Except.ok r := by
    simp only [addPayment]
    rw [if_neg (by norm_num), if_neg (by simp [baseInvoice])]
    exact ⟨_, rfl⟩
  obtain ⟨⟨inv', ps'⟩, hadd⟩ := hadd
  have hdel : ∃ r, deletePayment { baseInvoice with total := 30, amountPaid := 10 }
      [{ id := 1, amount := 10 }] 1 = Except.ok r := ⟨_, rfl⟩
  obtain ⟨⟨inv'', ps''⟩, hdel⟩ := hdel
  refine ⟨inv', ps', hadd,
    c3_amountPaid_consistency.1 _ _ _ _ _ _ _ (by simp [baseInvoice, paymentsSum]) hadd,
    inv'', ps'', hdel,
    c3_amountPaid_consistency.2.1 _ _ _ _ _ (by simp) (by simp) ?_ hdel⟩
  simp [baseInvoice, paymentsSum]

/-! Theorems for Claim C4. -/

/-- Claim C4 counterexample: the claim says the totals computation clamps
the taxable base at zero, caps a fixed discount at the subtotal, and
yields all-zero totals for an empty item list.  With no items, a fixed
discount of 10 and a 10% tax rate, the engine stores
`discountAmount = 10`, `taxAmount = -1` and `total = -11`: the fixed
discount is not capped, the taxable base is not clamped, and the totals
of an empty invoice are not all zero. -/
theorem c4_counterexample :
    (calculateInvoiceTotals []
      { baseInvoice with
        discountType := DiscountType.fixed,
        discountValue := 10, taxRate := 10 }).discountAmount = 10 ∧
    (calculateInvoiceTotals []
      { baseInvoice with
        discountType := DiscountType.fixed,
        discountValue := 10, taxRate := 10 }).taxAmount = -1 ∧
    (calculateInvoiceTotals []
      { baseInvoice with
        discountType := DiscountType.fixed,
        discountValue := 10, taxRate := 10 }).total = -11 ∧
    (calculateInvoiceTotals []
      { baseInvoice with
        discountType := DiscountType.fixed,
        discountValue := 10, taxRate := 10 }).taxAmount ≠
      max 0 ((calculateInvoiceTotals []
        { baseInvoice with
          discountType := DiscountType.fixed,
          discountValue := 10, taxRate := 10 }).subtotal -
        (calculateInvoiceTotals []
          { baseInvoice with
            discountType := DiscountType.fixed,
            discountValue := 10, taxRate := 10 }).discountAmount) * (10 / 100) ∧
    (calculateInvoiceTotals []
      { baseInvoice with
        discountType := DiscountType.fixed,
        discountValue := 10, taxRate := 10 }).total ≠ 0 := by
  refine ⟨?_, ?_, ?_, ?_, ?_⟩ <;>
    simp [calculateInvoiceTotals, itemsSum, baseInvoice] <;> norm_num

/-- Claim C4 (amended): the totals computation applies no clamping at all.
A non-fixed discount on an empty item list does give all-zero totals, but
a fixed discount is copied into `discountAmount` unconditionally, the tax
is computed on the possibly negative difference `subtotal - discountAmount`,
and with no items a fixed discount `v` yields
`total = -(v * (1 + taxRate/100))`, which is negative for positive `v`. -/
theorem c4_no_clamping :
    (∀ inv : Invoice, inv.discountType ≠ DiscountType.fixed →
      (calculateInvoiceTotals [] inv).subtotal = 0 ∧
      (calculateInvoiceTotals [] inv).discountAmount = 0 ∧
      (calculateInvoiceTotals [] inv).taxAmount = 0 ∧
      (calculateInvoiceTotals [] inv).total = 0) ∧
    (∀ inv : Invoice, inv.discountType = DiscountType.fixed →
      (calculateInvoiceTotals [] inv).discountAmount = inv.discountValue ∧
      (calculateInvoiceTotals [] inv).taxAmount =
        -(inv.discountValue * (inv.taxRate / 100)) ∧
      (calculateInvoiceTotals [] inv).total =
        -(inv.discountValue * (1 + inv.taxRate / 100))) := by
  constructor
  · intro inv hdt
    cases h : inv.discountType with
    | noDiscount =>
      refine ⟨rfl, ?_, ?_, ?_⟩ <;> simp [calculateInvoiceTotals, itemsSum, h]
    | percentage =>
      refine ⟨rfl, ?_, ?_, ?_⟩ <;> simp [calculateInvoiceTotals, itemsSum, h]
    | fixed => exact absurd h hdt
  · intro inv h
    refine ⟨?_, ?_, ?_⟩ <;> (simp [calculateInvoiceTotals, itemsSum, h]; try ring)

/-- Claim C4 witness: the amended statement instantiated on a concrete
percentage-discount invoice and a concrete fixed-discount invoice. -/
theorem c4_no_clamping_witness :
    ((calculateInvoiceTotals []
      { baseInvoice with
        discountType := DiscountType.percentage,
        discountValue := 20 }).total = 0) ∧
    ((calculateInvoiceTotals []
      { baseInvoice with
        discountType := DiscountType.fixed,
        discountValue := 10, taxRate := 10 }).total =
      -((10 : ℚ) * (1 + (10 : ℚ) / 100))) := by
  constructor
  · exact (c4_no_clamping.1
      { baseInvoice with discountType := DiscountType.percentage, discountValue := 20 }
      (by simp [baseInvoice])).2.2.2
  · exact (c4_no_clamping.2
      { baseInvoice with
        discountType := DiscountType.fixed,
        discountValue := 10, taxRate := 10 } (by simp [baseInvoice])).2.2

/-! Theorems for Claim C5. -/

/-- Storage rounding always produces an integer number of hundredths. -/
theorem isTwoDecimal_round2 (q : Rat) : isTwoDecimal (round2 q) := by
  unfold round2 isTwoDecimal
  split_ifs
  · exact ⟨-⌊(-q) * 100 + 1 / 2⌋, by push_cast; ring⟩
  · exact ⟨⌊q * 100 + 1 / 2⌋, rfl⟩

/-- Storage rounding of 0.025 rounds half away from zero to 0.03. -/
theorem round2_one_div_forty : round2 (1 / 40 : ℚ) = 3 / 100 := by
  unfold round2
  rw [if_neg (by norm_num)]
  have h : (1 / 40 : ℚ) * 100 + 1 / 2 = 3 := by norm_num
  rw [h]
  have h2 : ⌊(3 : ℚ)⌋ = 3 := by
    rw [Int.floor_eq_iff]
    norm_num
  rw [h2]
  norm_num

/-- Storage rounding leaves the 2-decimal value 0.05 unchanged. -/
theorem round2_one_div_twenty : round2 (1 / 20 : ℚ) = 1 / 20 := by
  unfold round2
  rw [if_neg (by norm_num)]
  have h : (1 / 20 : ℚ) * 100 + 1 / 2 = 11 / 2 := by norm_num
  rw [h]
  have h2 : ⌊(11 / 2 : ℚ)⌋ = 5 := by
    rw [Int.floor_eq_iff]
    norm_num
  rw [h2]
  norm_num

/-- Storage rounding fixes 0. -/
theorem round2_zero : round2 (0 : ℚ) = 0 := by
  unfold round2
  rw [if_neg (by norm_num)]
  have h : (0 : ℚ) * 100 + 1 / 2 = 1 / 2 := by norm_num
  rw [h]
  have h2 : ⌊(1 / 2 : ℚ)⌋ = 0 := by
    rw [Int.floor_eq_iff]
    norm_num
  rw [h2]
  norm_num

/-- The exact derived values of the one-item 50%-discount fixture used to
refute per-step rounding: subtotal 0.05, discountAmount 0.025, taxAmount 0,
total 0.025. -/
theorem c5_fixture_exact :
    (calculateInvoiceTotals
      [{ description := "x", quantity := 1, rate := 1 / 20, amount := 1 / 20, sortOrder := 0 }]
      { baseInvoice with
        discountType := DiscountType.percentage, discountValue := 50 }).subtotal = 1 / 20 ∧
    (calculateInvoiceTotals
      [{ description := "x", quantity := 1, rate := 1 / 20, amount := 1 / 20, sortOrder := 0 }]
      { baseInvoice with
        discountType := DiscountType.percentage, discountValue := 50 }).discountAmount = 1 / 40 ∧
    (calculateInvoiceTotals
      [{ description := "x", quantity := 1, rate := 1 / 20, amount := 1 / 20, sortOrder := 0 }]
      { baseInvoice with
        discountType := DiscountType.percentage, discountValue := 50 }).taxAmount = 0 ∧
    (calculateInvoiceTotals
      [{ description := "x", quantity := 1, rate := 1 / 20, amount := 1 / 20, sortOrder := 0 }]
      { baseInvoice with
        discountType := DiscountType.percentage, discountValue := 50 }).total = 1 / 40 := by
  refine ⟨?_, ?_, ?_, ?_⟩ <;> (simp [calculateInvoiceTotals, itemsSum, baseInvoice]; try norm_num)

/-- Claim C5 counterexample: the claim says each derived field is rounded
at its own derived-field boundary, every later step using the
already-rounded value of the earlier step.  For one item of amount 0.05
with a 50% percentage discount and no tax, the stored row has
`discountAmount = 0.03` (0.025 rounded at storage) but `total = 0.03` as
well, violating `total = subtotal - discountAmount + taxAmount` on the
stored values (0.03 is not 0.05 - 0.03 + 0.00 = 0.02): the later steps
used the unrounded 0.025, so rounding happened only once, at storage,
not at each boundary as claimed. -/
theorem c5_counterexample :
    (storedTotals
      [{ description := "x", quantity := 1, rate := 1 / 20, amount := 1 / 20, sortOrder := 0 }]
      { baseInvoice with
        discountType := DiscountType.percentage, discountValue := 50 }).subtotal = 1 / 20 ∧
    (storedTotals
      [{ description := "x", quantity := 1, rate := 1 / 20, amount := 1 / 20, sortOrder := 0 }]
      { baseInvoice with
        discountType := DiscountType.percentage, discountValue := 50 }).discountAmount = 3 / 100 ∧
    (storedTotals
      [{ description := "x", quantity := 1, rate := 1 / 20, amount := 1 / 20, sortOrder := 0 }]
      { baseInvoice with
        discountType := DiscountType.percentage, discountValue := 50 }).taxAmount = 0 ∧
    (storedTotals
      [{ description := "x", quantity := 1, rate := 1 / 20, amount := 1 / 20, sortOrder := 0 }]
      { baseInvoice with
        discountType := DiscountType.percentage, discountValue := 50 }).total = 3 / 100 ∧
    (storedTotals
      [{ description := "x", quantity := 1, rate := 1 / 20, amount := 1 / 20, sortOrder := 0 }]
      { baseInvoice with
        discountType := DiscountType.percentage, discountValue := 50 }).total ≠
      (storedTotals
        [{ description := "x", quantity := 1, rate := 1 / 20, amount := 1 / 20, sortOrder := 0 }]
        { baseInvoice with
          discountType := DiscountType.percentage, discountValue := 50 }).subtotal -
        (storedTotals
          [{ description := "x", quantity := 1, rate := 1 / 20, amount := 1 / 20, sortOrder := 0 }]
          { baseInvoice with
            discountType := DiscountType.percentage, discountValue := 50 }).discountAmount +
        (storedTotals
          [{ description := "x", quantity := 1, rate := 1 / 20, amount := 1 / 20, sortOrder := 0 }]
          { baseInvoice with
            discountType := DiscountType.percentage, discountValue := 50 }).taxAmount := by
  obtain ⟨hsub, hdis, htax, htot⟩ := c5_fixture_exact
  have s1 : (storedTotals
      [{ description := "x", quantity := 1, rate := 1 / 20, amount := 1 / 20, sortOrder := 0 }]
      { baseInvoice with
        discountType := DiscountType.percentage, discountValue := 50 }).subtotal = 1 / 20 := by
    show round2 ((calculateInvoiceTotals _ _).subtotal) = 1 / 20
    rw [hsub, round2_one_div_twenty]
  have s2 : (storedTotals
      [{ description := "x", quantity := 1, rate := 1 / 20, amount := 1 / 20, sortOrder := 0 }]
      { baseInvoice with
        discountType := DiscountType.percentage, discountValue := 50 }).discountAmount = 3 / 100 := by
    show round2 ((calculateInvoiceTotals _ _).discountAmount) = 3 / 100
    rw [hdis, round2_one_div_forty]
  have s3 : (storedTotals
      [{ description := "x", quantity := 1, rate := 1 / 20, amount := 1 / 20, sortOrder := 0 }]
      { baseInvoice with
        discountType := DiscountType.percentage, discountValue := 50 }).taxAmount = 0 := by
    show round2 ((calculateInvoiceTotals _ _).taxAmount) = 0
    rw [htax, round2_zero]
  have s4 : (storedTotals
      [{ description := "x", quantity := 1, rate := 1 / 20, amount := 1 / 20, sortOrder := 0 }]
      { baseInvoice with
        discountType := DiscountType.percentage, discountValue := 50 }).total = 3 / 100 := by
    show round2 ((calculateInvoiceTotals _ _).total) = 3 / 100
    rw [htot, round2_one_div_forty]
  refine ⟨s1, s2, s3, s4, ?_⟩
  rw [s1, s2, s3, s4]
  norm_num

/-- Claim C5 (amended): every stored monetary field is rounded to 2
decimal places, but only once, at storage time, by the `decimal(12,2)`
columns (PostgreSQL round half away from zero); the derived-field
computation itself is unrounded, so each later step uses the unrounded
value of the earlier step.  Consequently every stored field is an integer
number of hundredths and the stored total is the storage rounding of the
exact end value, yet the stored fields need not satisfy the per-step
relation `total = subtotal - discountAmount + taxAmount` that
per-boundary rounding would guarantee. -/
theorem c5_storage_rounding :
    (∀ (items : List LineItem) (inv : Invoice),
      isTwoDecimal (storedTotals items inv).subtotal ∧
      isTwoDecimal (storedTotals items inv).discountAmount ∧
      isTwoDecimal (storedTotals items inv).taxAmount ∧
      isTwoDecimal (storedTotals items inv).total ∧
      isTwoDecimal (storedTotals items inv).balanceDue) ∧
    (∀ (items : List LineItem) (inv : Invoice),
      (storedTotals items inv).total =
        round2 ((calculateInvoiceTotals items inv).subtotal -
          (calculateInvoiceTotals items inv).discountAmount +
          (calculateInvoiceTotals items inv).taxAmount)) ∧
    (∃ (items : List LineItem) (inv : Invoice),
      (storedTotals items inv).total ≠
        (storedTotals items inv).subtotal -
          (storedTotals items inv).discountAmount +
          (storedTotals items inv).taxAmount) := by
  refine ⟨?_, ?_, ?_⟩
  · intro items inv
    exact ⟨isTwoDecimal_round2 _, isTwoDecimal_round2 _, isTwoDecimal_round2 _,
      isTwoDecimal_round2 _, isTwoDecimal_round2 _⟩
  · intro items inv
    rfl
  · refine ⟨[{ description := "x", quantity := 1, rate := 1 / 20, amount := 1 / 20, sortOrder := 0 }],
      { baseInvoice with
        discountType := DiscountType.percentage, discountValue := 50 }, ?_⟩
    obtain ⟨hsub, hdis, htax, htot⟩ := c5_fixture_exact
    have s1 : round2 ((calculateInvoiceTotals
        [{ description := "x", quantity := 1, rate := 1 / 20, amount := 1 / 20, sortOrder := 0 }]
        { baseInvoice with
          discountType := DiscountType.percentage, discountValue := 50 }).subtotal) = 1 / 20 := by
      rw [hsub, round2_one_div_twenty]
    have s2 : round2 ((calculateInvoiceTotals
        [{ description := "x", quantity := 1, rate := 1 / 20, amount := 1 / 20, sortOrder := 0 }]
        { baseInvoice with
          discountType := DiscountType.percentage, discountValue := 50 }).discountAmount) = 3 / 100 := by
      rw [hdis, round2_one_div_forty]
    have s3 : round2 ((calculateInvoiceTotals
        [{ description := "x", quantity := 1, rate := 1 / 20, amount := 1 / 20, sortOrder := 0 }]
        { baseInvoice with
          discountType := DiscountType.percentage, discountValue := 50 }).taxAmount) = 0 := by
      rw [htax, round2_zero]
    have s4 : round2 ((calculateInvoiceTotals
        [{ description := "x", quantity := 1, rate := 1 / 20, amount := 1 / 20, sortOrder := 0 }]
        { baseInvoice with
          discountType := DiscountType.percentage, discountValue := 50 }).total) = 3 / 100 := by
      rw [htot, round2_one_div_forty]
    show round2 ((calculateInvoiceTotals _ _).total) ≠
      round2 ((calculateInvoiceTotals _ _).subtotal) -
        round2 ((calculateInvoiceTotals _ _).discountAmount) +
        round2 ((calculateInvoiceTotals _ _).taxAmount)
    rw [s1, s2, s3, s4]
    norm_num

/-! Theorems for Claim C7. -/

/-- Claim C7 counterexample: the claim says `paidAt` is set exactly once
and in particular recording a further payment on an already-paid invoice
leaves it unchanged.  Adding a payment of 5 at time 9 to an invoice that
is already paid with `paidAt = 3` overwrites `paidAt` with 9. -/
theorem c7_counterexample :
    ∃ (inv' : Invoice) (ps' : List Payment),
      addPayment { baseInvoice with
        status := InvoiceStatus.paid, total := 100,
        amountPaid := 100, paidAt := some 3 } [] 5 9 1 = Except.ok (inv', ps') ∧
      ({ baseInvoice with
        status := InvoiceStatus.paid, total := 100,
        amountPaid := 100, paidAt := some 3 } : Invoice).paidAt = some 3 ∧
      inv'.paidAt = some 9 ∧
      inv'.status = InvoiceStatus.paid := by
  have hadd : ∃ r, addPayment { baseInvoice with
      status := InvoiceStatus.paid,
      total := 100, amountPaid := 100, paidAt := some 3 } [] 5 9 1 =
      Except.ok r := by
    simp only [addPayment]
    rw [if_neg (by norm_num), if_neg (by simp [baseInvoice])]
    exact ⟨_, rfl⟩
  obtain ⟨⟨inv', ps'⟩, hadd⟩ := hadd
  obtain ⟨_, _, _, hst, hpd, _⟩ := addPayment_ok_spec hadd
  have hstatus : inv'.status = InvoiceStatus.paid := by
    rw [hst, if_pos]
    simp [baseInvoice]
  refine ⟨inv', ps', hadd, rfl, ?_, hstatus⟩
  rw [hpd, if_pos hstatus]

/-- Claim C7 (amended): the explicit status route never clears or
overwrites a timestamp that is already set; payment operations leave
`sentAt` and `viewedAt` untouched; but a successful payment add stores
`paidAt = now` whenever the resulting status is paid -- including when the
invoice was already paid -- and a successful payment delete nulls `paidAt`
whenever the resulting status is not paid. -/
theorem c7_timestamp_discipline :
    (∀ (inv : Invoice) (s : InvoiceStatus) (now t : Nat),
      inv.sentAt = some t → (setStatus inv s now).sentAt = some t) ∧
    (∀ (inv : Invoice) (s : InvoiceStatus) (now t : Nat),
      inv.viewedAt = some t → (setStatus inv s now).viewedAt = some t) ∧
    (∀ (inv : Invoice) (s : InvoiceStatus) (now t : Nat),
      inv.paidAt = some t → (setStatus inv s now).paidAt = some t) ∧
    (∀ (inv : Invoice) (ps : List Payment) (a : Rat) (now newId : Nat)
        (inv' : Invoice) (ps' : List Payment),
      addPayment inv ps a now newId = Except.ok (inv', ps') →
      inv'.sentAt = inv.sentAt ∧ inv'.viewedAt = inv.viewedAt ∧
      (inv'.status = InvoiceStatus.paid → inv'.paidAt = some now) ∧
      (inv'.status ≠ InvoiceStatus.paid → inv'.paidAt = inv.paidAt)) ∧
    (∀ (inv : Invoice) (ps : List Payment) (pid : Nat)
        (inv' : Invoice) (ps' : List Payment),
      deletePayment inv ps pid = Except.ok (inv', ps') →
      inv'.sentAt = inv.sentAt ∧ inv'.viewedAt = inv.viewedAt ∧
      (inv'.status ≠ InvoiceStatus.paid → inv'.paidAt = none) ∧
      (inv'.status = InvoiceStatus.paid → inv'.paidAt = inv.paidAt)) := by
  refine ⟨?_, ?_, ?_, ?_, ?_⟩
  · intro inv s now t h
    rw [(setStatus_spec inv s now).2.1]
    simp [h]
  · intro inv s now t h
    rw [(setStatus_spec inv s now).2.2.1]
    simp [h]
  · intro inv s now t h
    rw [(setStatus_spec inv s now).2.2.2.1]
    simp [h]
  · intro inv ps a now newId inv' ps' h
    obtain ⟨_, _, _, _, hpd, hsent, hview, _⟩ := addPayment_ok_spec h
    refine ⟨hsent, hview, ?_, ?_⟩
    · intro hs; rw [hpd, if_pos hs]
    · intro hs; rw [hpd, if_neg hs]
  · intro inv ps pid inv' ps' h
    obtain ⟨p, hf⟩ := deletePayment_ok_find h
    obtain ⟨_, _, _, hpd, hsent, hview, _, _⟩ := deletePayment_ok_spec hf h
    refine ⟨hsent, hview, ?_, ?_⟩
    · intro hs; rw [hpd, if_pos hs]
    · intro hs; rw [hpd, if_neg (by simp [hs])]

/-- Claim C7 witness: the amended statement instantiated on a concrete
status set, a concrete payment add and a concrete payment delete. -/
theorem c7_timestamp_discipline_witness :
    (setStatus { baseInvoice with sentAt := some 2 } InvoiceStatus.sent 9).sentAt = some 2 ∧
    ∃ (inv' : Invoice) (ps' : List Payment),
      addPayment { baseInvoice with total := 30 } [] 10 5 1 = Except.ok (inv', ps') ∧
      inv'.sentAt = ({ baseInvoice with total := 30 } : Invoice).sentAt ∧
      ∃ (inv'' : Invoice) (ps'' : List Payment),
        deletePayment { baseInvoice with total := 30, amountPaid := 10 }
          [{ id := 1, amount := 10 }] 1 = Except.ok (inv'', ps'') ∧
        inv''.viewedAt = ({ baseInvoice with total := 30, amountPaid := 10 } : Invoice).viewedAt := by
  have hadd : ∃ r, addPayment { baseInvoice with total := 30 } [] 10 5 1 = Except.ok r := by
    simp only [addPayment]
    rw [if_neg (by norm_num), if_neg (by simp [baseInvoice])]
    exact ⟨_, rfl⟩
  obtain ⟨⟨inv', ps'⟩, hadd⟩ := hadd
  have hdel : ∃ r, deletePayment { baseInvoice with total := 30, amountPaid := 10 }
      [{ id := 1, amount := 10 }] 1 = Except.ok r := ⟨_, rfl⟩
  obtain ⟨⟨inv'', ps''⟩, hdel⟩ := hdel
  exact ⟨c7_timestamp_discipline.1 _ InvoiceStatus.sent 9 2 rfl,
    inv', ps', hadd, (c7_timestamp_discipline.2.2.2.1 _ _ _ _ _ _ _ hadd).1,
    inv'', ps'', hdel, (c7_timestamp_discipline.2.2.2.2 _ _ _ _ _ hdel).2.1⟩

/-! Theorems for Claim C6. -/

/-- Claim C6: payment round-trip.  For a non-cancelled invoice with
`amountPaid = 0` and `balanceDue = total` (and `total` at least the 0.01
validation minimum, so the payment is accepted), adding one payment of
exactly `total` makes the invoice paid with `balanceDue = 0` and
`paidAt = now`; deleting that same payment reverts the status to sent if
`sentAt` is set (else draft), clears `paidAt`, restores
`balanceDue = total` and `amountPaid = 0`, and leaves the original
payment list. -/
theorem c6_payment_roundtrip (inv : Invoice) (ps : List Payment) (now pid : Nat)
    (hc : inv.status ≠ InvoiceStatus.cancelled)
    (hap : inv.amountPaid = 0)
    (_hbd : inv.balanceDue = inv.total)
    (ht : 1 / 100 ≤ inv.total)
    (hfresh : ∀ p ∈ ps, p.id ≠ pid) :
    ∃ (inv' : Invoice) (ps' : List Payment),
      addPayment inv ps inv.total now pid = Except.ok (inv', ps') ∧
      inv'.status = InvoiceStatus.paid ∧
      inv'.balanceDue = 0 ∧
      inv'.paidAt = some now ∧
      ∃ (inv'' : Invoice) (ps'' : List Payment),
        deletePayment inv' ps' pid = Except.ok (inv'', ps'') ∧
        inv''.status =
          (if inv.sentAt.isSome then InvoiceStatus.sent else InvoiceStatus.draft) ∧
        inv''.paidAt = none ∧
        inv''.balanceDue = inv.total ∧
        inv''.amountPaid = 0 ∧
        ps'' = ps := by
  have hT0 : (0 : ℚ) < inv.total := lt_of_lt_of_le (by norm_num) ht
  have hadd : ∃ r, addPayment inv ps inv.total now pid = Except.ok r := by
    simp only [addPayment]
    rw [if_neg (not_lt.mpr ht), if_neg hc]
    exact ⟨_, rfl⟩
  obtain ⟨⟨inv', ps'⟩, hadd⟩ := hadd
  obtain ⟨h1ap, h1t, h1bd, h1st, h1pd, h1sent, h1view, h1ps⟩ := addPayment_ok_spec hadd
  have hcond : inv.total - (inv.amountPaid + inv.total) ≤ 0 := by
    rw [hap]; simp
  have hstat : inv'.status = InvoiceStatus.paid := by rw [h1st, if_pos hcond]
  have haPtotal : inv'.amountPaid = inv.total := by rw [h1ap, hap, zero_add]
  have hbd' : inv'.balanceDue = 0 := by
    rw [h1bd, hap, zero_add, sub_self]
    simp
  have hpd' : inv'.paidAt = some now := by rw [h1pd, if_pos hstat]
  have hfnone : ps.find? (fun q => q.id == pid) = none :=
    List.find?_eq_none.mpr (fun p hp => by simp [hfresh p hp])
  have hfind : ps'.find? (fun q => q.id == pid) =
      some { id := pid, amount := inv.total } := by
    rw [h1ps, List.find?_append, hfnone]
    simp [List.find?]
  have hdel : ∃ r, deletePayment inv' ps' pid = Except.ok r := by
    simp only [deletePayment, hfind]
    exact ⟨_, rfl⟩
  obtain ⟨⟨inv'', ps''⟩, hdel⟩ := hdel
  obtain ⟨h2ap, h2bd, h2st, h2pd, h2sent, h2view, h2t, h2ps⟩ :=
    deletePayment_ok_spec hfind hdel
  have hcond2 : inv'.status = InvoiceStatus.paid ∧
      inv'.total - (inv'.amountPaid -
        ({ id := pid, amount := inv.total } : Payment).amount) > 0 := by
    refine ⟨hstat, ?_⟩
    rw [h1t, haPtotal]
    simpa using hT0
  have hst2 : inv''.status =
      (if inv.sentAt.isSome then InvoiceStatus.sent else InvoiceStatus.draft) := by
    rw [h2st, if_pos hcond2, h1sent]
  have hne2 : inv''.status ≠ InvoiceStatus.paid := by
    rw [hst2]
    cases inv.sentAt <;> simp
  refine ⟨inv', ps', hadd, hstat, hbd', hpd', inv'', ps'', hdel, hst2, ?_, ?_, ?_, ?_⟩
  · rw [h2pd, if_pos hne2]
  · rw [h2bd, h1t, haPtotal]
    simp
  · rw [h2ap, haPtotal]
    simp
  · rw [h2ps, h1ps, List.filter_append]
    have hkeep : ps.filter (fun q => q.id != pid) = ps :=
      List.filter_eq_self.mpr (fun q hq => by simp [hfresh q hq])
    simp [hkeep]

/-- Claim C6 witness: the round-trip instantiated on a sent invoice with
total 88 (the spec's Scenario C/D numbers) and an empty payment list. -/
theorem c6_payment_roundtrip_witness :
    ∃ (inv' : Invoice) (ps' : List Payment),
      addPayment { baseInvoice with
        status := InvoiceStatus.sent, sentAt := some 2, total := 88,
        balanceDue := 88 } []
        ({ baseInvoice with
          status := InvoiceStatus.sent, sentAt := some 2, total := 88,
          balanceDue := 88 } : Invoice).total 9 1 = Except.ok (inv', ps') ∧
      inv'.status = InvoiceStatus.paid ∧
      inv'.balanceDue = 0 ∧
      inv'.paidAt = some 9 ∧
      ∃ (inv'' : Invoice) (ps'' : List Payment),
        deletePayment inv' ps' 1 = Except.ok (inv'', ps'') ∧
        inv''.status =
          (if ({ baseInvoice with
            status := InvoiceStatus.sent, sentAt := some 2, total := 88,
            balanceDue := 88 } : Invoice).sentAt.isSome then InvoiceStatus.sent
          else InvoiceStatus.draft) ∧
        inv''.paidAt = none ∧
        inv''.balanceDue = ({ baseInvoice with
          status := InvoiceStatus.sent, sentAt := some 2, total := 88,
          balanceDue := 88 } : Invoice).total ∧
        inv''.amountPaid = 0 ∧
        ps'' = [] :=
  c6_payment_roundtrip
    { baseInvoice with
      status := InvoiceStatus.sent, sentAt := some 2, total := 88,
      balanceDue := 88 } [] 9 1
    (by simp [baseInvoice]) rfl rfl (by norm_num [baseInvoice]) (by simp)

/-! Lemmas about the sequence allocator. -/

/-- Appending a fresh row makes it the lookup result for its user. -/
theorem seqLookup_append_self (t : SeqTable) (u : Nat) (s : InvoiceSequence)
    (h : seqLookup t u = none) : seqLookup (t ++ [(u, s)]) u = some s := by
  induction t with
  | nil => simp [seqLookup]
  | cons r rest ih =>
    obtain ⟨k, v⟩ := r
    simp only [seqLookup, List.cons_append] at h ⊢
    by_cases hk : k = u
    · rw [if_pos hk] at h
      cases h
    · rw [if_neg hk] at h ⊢
      exact ih h

/-- The atomic increment bumps exactly the looked-up row. -/
theorem seqLookup_increment (t : SeqTable) (u : Nat) :
    seqLookup (seqIncrement t u) u =
      (seqLookup t u).map (fun s => { s with nextNumber := s.nextNumber + 1 }) := by
  induction t with
  | nil => simp [seqLookup, seqIncrement]
  | cons r rest ih =>
    obtain ⟨k, v⟩ := r
    simp only [seqIncrement]
    by_cases hk : k = u
    · subst hk
      rw [if_pos rfl]
      simp [seqLookup]
    · rw [if_neg hk]
      simp [seqLookup, hk, ih]

/-- `sequenceAllocate` returns the (defaulted) current row and leaves the
table with that row's `nextNumber` incremented by one. -/
theorem sequenceAllocate_spec (u : Nat) (t : SeqTable) :
    (sequenceAllocate u t).1 = (seqLookup t u).getD defaultSequence ∧
    seqLookup (sequenceAllocate u t).2 u =
      some { (sequenceAllocate u t).1 with
             nextNumber := (sequenceAllocate u t).1.nextNumber + 1 } := by
  cases hl : seqLookup t u with
  | none =>
    have hup := seqLookup_append_self t u defaultSequence hl
    constructor
    · simp [sequenceAllocate, hl, hup]
    · simp [sequenceAllocate, hl, seqLookup_increment, hup]
  | some row =>
    constructor
    · simp [sequenceAllocate, hl]
    · simp [sequenceAllocate, hl, seqLookup_increment]

/-- `generateInvoiceNumber` formats the current row and bumps the counter. -/
theorem generateInvoiceNumber_of_lookup (t : SeqTable) (u : Nat)
    (row : InvoiceSequence) (h : seqLookup t u = some row) :
    (generateInvoiceNumber u t).1 =
      row.prefixVal ++ padStart (toString row.nextNumber) row.padding '0' ∧
    seqLookup (generateInvoiceNumber u t).2 u =
      some { row with nextNumber := row.nextNumber + 1 } := by
  obtain ⟨h1, h2⟩ := sequenceAllocate_spec u t
  rw [h] at h1
  simp only [Option.getD_some] at h1
  constructor
  · show (sequenceAllocate u t).1.prefixVal ++
      padStart (toString (sequenceAllocate u t).1.nextNumber)
        (sequenceAllocate u t).1.padding '0' = _
    rw [h1]
  · show seqLookup (sequenceAllocate u t).2 u = _
    rw [h2, h1]

/-- Claim C9: `generateInvoiceNumber` returns
`prefix + zeroPad(nextNumber, padding)` from the user's sequence row and
increments `nextNumber`; for a fresh user (no sequence row, so the default
row prefix "INV", nextNumber 1, padding 4 is created) two back-to-back
calls return "INV0001" and then "INV0002". -/
theorem c9_invoice_number_allocation (t : SeqTable) (u : Nat) :
    (∀ row : InvoiceSequence, seqLookup t u = some row →
      (generateInvoiceNumber u t).1 =
        row.prefixVal ++ padStart (toString row.nextNumber) row.padding '0' ∧
      seqLookup (generateInvoiceNumber u t).2 u =
        some { row with nextNumber := row.nextNumber + 1 }) ∧
    (seqLookup t u = none →
      (generateInvoiceNumber u t).1 = "INV0001" ∧
      (generateInvoiceNumber u (generateInvoiceNumber u t).2).1 = "INV0002") := by
  constructor
  · exact fun row h => generateInvoiceNumber_of_lookup t u row h
  · intro h
    have hfst : (sequenceAllocate u t).1 = defaultSequence := by
      rw [(sequenceAllocate_spec u t).1, h]
      rfl
    have hl2 : seqLookup (generateInvoiceNumber u t).2 u =
        some { defaultSequence with nextNumber := 2 } := by
      show seqLookup (sequenceAllocate u t).2 u = _
      rw [(sequenceAllocate_spec u t).2, hfst]
      rfl
    constructor
    · show (sequenceAllocate u t).1.prefixVal ++
        padStart (toString (sequenceAllocate u t).1.nextNumber)
          (sequenceAllocate u t).1.padding '0' = _
      rw [hfst]
      rfl
    · rw [(generateInvoiceNumber_of_lookup _ u _ hl2).1]
      rfl

/-- Claim C9 witness: both calls evaluated for the fresh user 7 on an
empty sequence table. -/
theorem c9_invoice_number_allocation_witness :
    (generateInvoiceNumber 7 []).1 = "INV0001" ∧
    (generateInvoiceNumber 7 (generateInvoiceNumber 7 []).2).1 = "INV0002" :=
  (c9_invoice_number_allocation [] 7).2 rfl

/-! Theorems for Claim C8. -/

/-- The allocated row carries the pre-increment counter value: the stored
`nextNumber` of the user's row, or 1 for a fresh user. -/
theorem allocate_fst_nextNumber (u : Nat) (t : SeqTable) :
    (sequenceAllocate u t).1.nextNumber =
      ((seqLookup t u).map (fun r => r.nextNumber)).getD 1 := by
  rw [(sequenceAllocate_spec u t).1]
  cases seqLookup t u <;> rfl

/-- Each creation attempt, successful or failed, bumps the next counter
value by one. -/
theorem createAttempt_next (u : Nat) (f : Bool) (st : CreateStore) :
    nextCounter (createAttempt u f st) u = nextCounter st u + 1 := by
  cases f <;>
    simp [createAttempt, nextCounter, (sequenceAllocate_spec u st.seqs).2,
      allocate_fst_nextNumber]

/-- A failed attempt records nothing; a successful one records the current
counter value. -/
theorem createAttempt_issued (u : Nat) (f : Bool) (st : CreateStore) :
    (createAttempt u f st).issuedNumbers.map Prod.fst =
      (if f then st.issuedNumbers.map Prod.fst
       else st.issuedNumbers.map Prod.fst ++ [nextCounter st u]) := by
  cases f <;> simp [createAttempt, nextCounter, allocate_fst_nextNumber]

/-- Core induction for the allocator: the issued-below invariant and the
strictly-increasing order of issued counter values are preserved by any
sequence of creation attempts. -/
theorem runAttempts_issued_increasing (u : Nat) :
    ∀ (fails : List Bool) (st : CreateStore),
      IssuedBelow st u →
      (st.issuedNumbers.map Prod.fst).Pairwise (· < ·) →
      IssuedBelow (runAttempts u fails st) u ∧
      ((runAttempts u fails st).issuedNumbers.map Prod.fst).Pairwise (· < ·) := by
  intro fails
  induction fails with
  | nil => intro st h1 h2; exact ⟨h1, h2⟩
  | cons f rest ih =>
    intro st h1 h2
    have hstep1 : IssuedBelow (createAttempt u f st) u := by
      intro n hn
      rw [createAttempt_issued] at hn
      rw [createAttempt_next]
      cases f with
      | true =>
        rw [if_pos rfl] at hn
        exact Nat.lt_succ_of_lt (h1 n hn)
      | false =>
        rw [if_neg (by simp)] at hn
        rcases List.mem_append.mp hn with hmem | hmem
        · exact Nat.lt_succ_of_lt (h1 n hmem)
        · have : n = nextCounter st u := by simpa using hmem
          rw [this]
          exact Nat.lt_succ_self _
    have hstep2 :
        ((createAttempt u f st).issuedNumbers.map Prod.fst).Pairwise (· < ·) := by
      rw [createAttempt_issued]
      cases f with
      | true => rw [if_pos rfl]; exact h2
      | false =>
        rw [if_neg (by simp), List.pairwise_append]
        refine ⟨h2, by simp, ?_⟩
        intro a ha b hb
        have : b = nextCounter st u := by simpa using hb
        rw [this]
        exact h1 a ha
    have hfold : runAttempts u (f :: rest) st =
        runAttempts u rest (createAttempt u f st) := rfl
    rw [hfold]
    exact ih _ hstep1 hstep2

/-- Claim C8 counterexample: the claim says successive createInvoice calls
for one user -- including ones interleaved with failed attempts -- receive
consecutive numbers with no gaps.  Starting from a fresh user, a
successful creation, a failed creation and another successful creation
yield the counter values 1 and 3 (strings "INV0001", "INV0003"): the
failed attempt consumed number 2, because the handler calls
generateInvoiceNumber on the shared db handle, outside the transaction
that rolls back. -/
theorem c8_counterexample :
    ((runAttempts 7 [false, true, false]
      { seqs := [], issuedNumbers := [] }).issuedNumbers.map Prod.fst) = [1, 3] ∧
    ((runAttempts 7 [false, true, false]
      { seqs := [], issuedNumbers := [] }).issuedNumbers.map Prod.snd) =
      ["INV0001", "INV0003"] ∧
    (3 : Nat) ≠ 1 + 1 := by
  refine ⟨rfl, rfl, by decide⟩

/-- Claim C8 (amended): every allocation -- successful or failed -- bumps
the per-user counter exactly once, so the counter values issued to
successfully created invoices are strictly increasing and pairwise
distinct (no number is ever reused, even across failures); but the
numbering is NOT gapless: an attempt that fails after allocation consumes
its number, because the sequence increment runs outside the creation
transaction and is not rolled back. -/
theorem c8_allocation_monotone (u : Nat) (fails : List Bool) (st : CreateStore)
    (h1 : IssuedBelow st u)
    (h2 : (st.issuedNumbers.map Prod.fst).Pairwise (· < ·)) :
    ((runAttempts u fails st).issuedNumbers.map Prod.fst).Pairwise (· < ·) ∧
    ((runAttempts u fails st).issuedNumbers.map Prod.fst).Nodup := by
  have h := runAttempts_issued_increasing u fails st h1 h2
  exact ⟨h.2, h.2.imp ne_of_lt⟩

/-- Claim C8 witness: the amended statement instantiated on a fresh user
with two successes, a failure, and another success. -/
theorem c8_allocation_monotone_witness :
    ((runAttempts 7 [false, false, true, false]
      { seqs := [], issuedNumbers := [] }).issuedNumbers.map Prod.fst).Pairwise (· < ·) ∧
    ((runAttempts 7 [false, false, true, false]
      { seqs := [], issuedNumbers := [] }).issuedNumbers.map Prod.fst).Nodup :=
  c8_allocation_monotone 7 [false, false, true, false]
    { seqs := [], issuedNumbers := [] }
    (fun n hn => by simp at hn) (by simp)

/-! Theorems for Claim C10. -/

/-- Claim C10 counterexample: the claim says no intermediate state of a
multi-step mutation is ever persisted or visible.  In the creation flow
the transaction that inserts the invoice and its items commits before the
separate totals update runs, so the trace of committed states contains a
state whose item rows sum to 100 while the stored invoice subtotal is
still the default 0. -/
theorem c10_counterexample :
    ∃ s : CreateDB,
      (createInvoiceTrace 7 10 DiscountType.noDiscount 0
        [{ description := "w", quantity := some 2, rate := some 50 }] [])[2]? =
        some s ∧
      itemsSum s.itemRows = 100 ∧
      s.invoiceRow.map Invoice.subtotal = some 0 ∧
      (100 : ℚ) ≠ 0 := by
  refine ⟨_, rfl, ?_, rfl, by norm_num⟩
  show itemsSum (buildItems
    [{ description := "w", quantity := some 2, rate := some 50 }]) = 100
  simp [itemsSum, buildItems, jsOr]
  norm_num

/-- Claim C10 (amended): invoice creation is not atomic.  The item rows
are committed by the creation transaction while the totals are updated by
a separate later commit, so whenever the inserted items have a nonzero
amount sum there is a committed, visible intermediate state whose stored
subtotal (still the schema default 0) disagrees with its item rows; only
the final commit of the trace restores subtotal = sum of item amounts. -/
theorem c10_create_not_atomic (u : Nat) (taxRate : Rat) (dt : DiscountType) (dv : Rat)
    (reqItems : List ReqItem) (seqs0 : SeqTable)
    (h : itemsSum (buildItems reqItems) ≠ 0) :
    ∃ s2 s3 : CreateDB,
      (createInvoiceTrace u taxRate dt dv reqItems seqs0)[2]? = some s2 ∧
      (createInvoiceTrace u taxRate dt dv reqItems seqs0)[3]? = some s3 ∧
      s2.itemRows = buildItems reqItems ∧
      s2.invoiceRow.map Invoice.subtotal = some 0 ∧
      s2.invoiceRow.map Invoice.subtotal ≠ some (itemsSum s2.itemRows) ∧
      s3.itemRows = s2.itemRows ∧
      s3.invoiceRow.map Invoice.subtotal = some (itemsSum s3.itemRows) := by
  refine ⟨_, _, rfl, rfl, rfl, rfl, ?_, rfl, rfl⟩
  intro heq
  have h0 : (0 : ℚ) = itemsSum (buildItems reqItems) :=
    Option.some_injective _ heq
  exact h h0.symm

/-- Claim C10 witness: the amended statement instantiated on a concrete
creation request with one 2 x 50 line item. -/
theorem c10_create_not_atomic_witness :
    ∃ s2 s3 : CreateDB,
      (createInvoiceTrace 7 10 DiscountType.noDiscount 0
        [{ description := "w", quantity := some 2, rate := some 50 }] [])[2]? =
        some s2 ∧
      (createInvoiceTrace 7 10 DiscountType.noDiscount 0
        [{ description := "w", quantity := some 2, rate := some 50 }] [])[3]? =
        some s3 ∧
      s2.itemRows = buildItems
        [{ description := "w", quantity := some 2, rate := some 50 }] ∧
      s2.invoiceRow.map Invoice.subtotal = some 0 ∧
      s2.invoiceRow.map Invoice.subtotal ≠ some (itemsSum s2.itemRows) ∧
      s3.itemRows = s2.itemRows ∧
      s3.invoiceRow.map Invoice.subtotal = some (itemsSum s3.itemRows) :=
  c10_create_not_atomic 7 10 DiscountType.noDiscount 0
    [{ description := "w", quantity := some 2, rate := some 50 }] []
    (by simp [itemsSum, buildItems, jsOr])

end Invoicer
